import Mathlib

/-!
Shallow embedding of the billing-integrated task dispatch pipeline of the
Axiom-AI-API repository, together with theorems checking the natural-language
specification against it.

Money is modelled as exact rationals (the SQL columns are DECIMAL(15,6); the
Python layer converts through float, whose rounding artifacts are outside the
scope of these claims, which are about the arithmetic structure of the
operations).  A SQL table keyed by primary key is modelled as a function from
the key type to `Option` of the stored value; an UPDATE with a WHERE clause on
the primary key touches at most the matching row, and its rowcount is positive
exactly when a row matched.  The MongoDB task collection is modelled as a
function from the task id string to `Option` of the task document.
-/

/-- Monetary amounts: exact rationals standing for the DECIMAL(15,6) columns. -/
abbrev Money : Type := ℚ

/-- Rounding to six decimal places, as in `round(x, 6)` applied in
`get_final_cost` (src/app/main_api_utils.py). -/
def round6 (x : Money) : Money := ((round (x * 1000000) : ℤ) : ℚ) / 1000000

/-- A ledger of per-key balances: the `api_keys` table restricted to the
balance column, keyed by a primary key of type `κ` (`id : Int` for the
id-keyed operations, `key_value : String` for the value-keyed top-up). -/
def Ledger (κ : Type) : Type := κ → Option Money

/-- Embedding of `ApiKeyRepository.deduct_from_balance`
(src/app/database/repositories/user_repository.py, lines 99-112):
UPDATE api_keys SET balance = balance - amount
WHERE id = key_id AND balance >= amount; returns rowcount > 0. -/
def deduct_from_balance [DecidableEq κ] (l : Ledger κ) (keyId : κ)
    (amount : Money) : Bool × Ledger κ :=
  match l keyId with
  | none => (false, l)
  | some b =>
      if amount ≤ b then
        (true, fun k => if k = keyId then some (b - amount) else l k)
      else
        (false, l)

/-- Embedding of `ApiKeyRepository.refund_balance` (user_repository.py,
lines 87-96): UPDATE api_keys SET balance = balance + amount
WHERE id = key_id, unconditionally; no rowcount check, no sign check. -/
def refund_balance [DecidableEq κ] (l : Ledger κ) (keyId : κ)
    (amount : Money) : Ledger κ :=
  match l keyId with
  | none => l
  | some b => fun k => if k = keyId then some (b + amount) else l k

/-- Embedding of `ApiKeyRepository.update_balance_by_id` (user_repository.py,
lines 114-131): UPDATE api_keys SET balance = new_balance WHERE id = key_id;
returns the updated row, or `none` when no row matched.  The new value is
written unchecked. -/
def update_balance_by_id [DecidableEq κ] (l : Ledger κ) (keyId : κ)
    (newBalance : Money) : Option Money × Ledger κ :=
  match l keyId with
  | none => (none, l)
  | some _ =>
      (some newBalance, fun k => if k = keyId then some newBalance else l k)

/-- Embedding of `ApiKeyRepository.add_to_balance` (user_repository.py,
lines 143-158): UPDATE api_keys SET balance = balance + amount
WHERE key_value = ...; returns the updated row, or `none` when no row
matched.  The amount is applied unconditionally, with no sign check. -/
def add_to_balance [DecidableEq κ] (l : Ledger κ) (keyValue : κ)
    (amount : Money) : Option Money × Ledger κ :=
  match l keyValue with
  | none => (none, l)
  | some b =>
      (some (b + amount), fun k => if k = keyValue then some (b + amount) else l k)

/-- A sequence of debit attempts against one key, applied left to right,
keeping only the resulting ledger (each attempt individually succeeds or
fails as in `deduct_from_balance`). -/
def debitSeq [DecidableEq κ] (l : Ledger κ) (keyId : κ)
    (amounts : List Money) : Ledger κ :=
  amounts.foldl (fun acc a => (deduct_from_balance acc keyId a).2) l

lemma deduct_preserves_nonneg [DecidableEq κ] (l : Ledger κ) (keyId : κ)
    (a : Money) (hnn : ∀ b, l keyId = some b → 0 ≤ b) :
    ∀ b', (deduct_from_balance l keyId a).2 keyId = some b' → 0 ≤ b' := by
  intro b' hb'
  unfold deduct_from_balance at hb'
  cases hl : l keyId with
  | none => rw [hl] at hb'; simp at hb'; rw [hl] at hb'; simp at hb'
  | some b =>
      rw [hl] at hb'
      by_cases hle : a ≤ b
      · simp only [hle, if_pos, if_true] at hb'
        simp at hb'
        subst hb'
        linarith
      · simp only [hle, if_neg, if_false] at hb'
        rw [hl] at hb'
        have := hnn b hl
        simp at hb'
        subst hb'
        exact this

lemma deduct_frame [DecidableEq κ] (l : Ledger κ) (keyId k : κ) (a : Money)
    (hk : k ≠ keyId) : (deduct_from_balance l keyId a).2 k = l k := by
  unfold deduct_from_balance
  cases hl : l keyId with
  | none => rfl
  | some b =>
      by_cases hle : a ≤ b
      · simp [hle, hk]
      · simp [hle]

lemma debitSeq_preserves_nonneg [DecidableEq κ] (keyId : κ)
    (amounts : List Money) :
    ∀ l : Ledger κ, (∀ b, l keyId = some b → 0 ≤ b) →
      ∀ b', debitSeq l keyId amounts keyId = some b' → 0 ≤ b' := by
  induction amounts with
  | nil => intro l h b' hb'; exact h b' hb'
  | cons a as ih =>
      intro l h b' hb'
      have hstep : ∀ b, (deduct_from_balance l keyId a).2 keyId = some b → 0 ≤ b :=
        deduct_preserves_nonneg l keyId a h
      exact ih ((deduct_from_balance l keyId a).2) hstep b' hb'

/-- Claim C1: for a key with current balance `b` and a non-negative amount
`a`, the debit succeeds exactly when `b ≥ a`; on success the balance becomes
`b - a`, on failure the ledger is untouched, and no sequence of debit
attempts ever drives the balance of the key below zero. -/
theorem debit_conditional_and_never_negative (l : Ledger ℤ) (keyId : ℤ)
    (b a : Money) (hb : l keyId = some b) (ha : 0 ≤ a) :
    ((deduct_from_balance l keyId a).1 = true ↔ a ≤ b) ∧
    (a ≤ b → (deduct_from_balance l keyId a).2 keyId = some (b - a)) ∧
    (¬ a ≤ b → (deduct_from_balance l keyId a).2 = l) ∧
    (0 ≤ b → ∀ amounts : List Money, ∀ b',
      debitSeq l keyId amounts keyId = some b' → 0 ≤ b') := by
  refine ⟨?_, ?_, ?_, ?_⟩
  · unfold deduct_from_balance
    rw [hb]
    by_cases hle : a ≤ b
    · simp [hle]
    · simp [hle]
  · intro hle
    unfold deduct_from_balance
    rw [hb]
    simp [hle]
  · intro hle
    unfold deduct_from_balance
    rw [hb]
    simp [hle]
  · intro hnn amounts b' hb'
    refine debitSeq_preserves_nonneg keyId amounts l ?_ b' hb'
    intro c hc
    rw [hb] at hc
    injection hc with hc
    subst hc
    exact hnn

/-- Witness for C1 at a concrete ledger: key 1 holds 5, a debit of 3 succeeds
leaving 2, a debit of 7 fails, and sequences of debits stay non-negative. -/
theorem debit_conditional_and_never_negative_witness :
    ((fun k => if k = (1 : ℤ) then some (5 : Money) else none) 1 = some 5)
    ∧ (0 ≤ (3 : Money))
    ∧ (((deduct_from_balance
          (fun k => if k = (1 : ℤ) then some (5 : Money) else none) 1 3).1 = true
        ↔ (3 : Money) ≤ 5)
      ∧ ((3 : Money) ≤ 5 →
          (deduct_from_balance
            (fun k => if k = (1 : ℤ) then some (5 : Money) else none) 1 3).2 1
            = some (5 - 3))
      ∧ (¬ (3 : Money) ≤ 5 →
          (deduct_from_balance
            (fun k => if k = (1 : ℤ) then some (5 : Money) else none) 1 3).2
            = (fun k => if k = (1 : ℤ) then some (5 : Money) else none))
      ∧ (0 ≤ (5 : Money) → ∀ amounts : List Money, ∀ b',
          debitSeq (fun k => if k = (1 : ℤ) then some (5 : Money) else none)
            1 amounts 1 = some b' → 0 ≤ b')) :=
  ⟨by simp, by norm_num,
   debit_conditional_and_never_negative
     (fun k => if k = (1 : ℤ) then some (5 : Money) else none) 1 5 3
     (by simp) (by norm_num)⟩

/-!
Pricing resolver.  `get_final_cost` (src/app/main_api_utils.py, lines 10-51)
reads the request parameter dictionary, resolves a per-user price override
and the catalog entry, and returns (final_cost, prime_cost).
`MODELS_WITH_DURATION_COST` is the duration-priced set; its default in
src/app/settings.py is the singleton set containing "video-model".
-/

/-- Duration-priced model set (default of `Settings.MODELS_WITH_DURATION_COST`
in src/app/settings.py). -/
def MODELS_WITH_DURATION_COST : List String := ["video-model"]

/-- A request parameter dictionary with numeric values, as passed to
`get_final_cost`; absent keys are modelled by a failing lookup. -/
abbrev PDict : Type := List (String × ℚ)

/-- Python truthiness fallback `v or 1` on a number: zero falls back to 1,
every other value (negative included) is kept. -/
def pyOrOne (v : ℚ) : ℚ := if v = 0 then 1 else v

/-- Multiplier resolution of `get_final_cost` (main_api_utils.py,
lines 19-22): `model_params.get(field, 1) or 1` with field "duration" for
duration-priced models and "num_images" otherwise. -/
def resolveMultiplier (model : String) (params : PDict) : ℚ :=
  if model ∈ MODELS_WITH_DURATION_COST then
    pyOrOne ((List.lookup "duration" params).getD 1)
  else
    pyOrOne ((List.lookup "num_images" params).getD 1)

/-- Multiplier computation of `GenerationService._calculate_costs`
(src/app/services/generation_service.py, lines 86-92): the attribute value
when present and strictly positive, else 1. -/
def serviceMultiplier (model : String) (duration : Option ℚ)
    (num_images : Option ℚ) : ℚ :=
  if model ∈ MODELS_WITH_DURATION_COST then
    match duration with
    | some d => if 0 < d then d else 1
    | none => 1
  else
    match num_images with
    | some n => if 0 < n then n else 1
    | none => 1

/-- Row of the `prices` table (src/app/database/main_models.py, class
`Price`): base cost, prime cost, active flag (keyed by model name). -/
structure Price where
  cost : Money
  prime_cost : Money
  is_active : Bool
deriving DecidableEq

/-- The price catalog: model name to catalog row
(`PriceRepository.get_by_model_name`). -/
def Catalog : Type := String → Option Price

/-- Per-user price overrides: (telegram id, model name) to custom cost
(`UserPriceRepository.get_price` on the `user_prices` table). -/
def Overrides : Type := ℤ → String → Option Money

/-- Row of the `users` table relevant to pricing: telegram id and pricing
coefficient. -/
structure PUser where
  telegram_id : ℤ
  coefficient : ℚ

/-- Typed rejections of the submission path (HTTP 422, 404, 402 in the
source). -/
inductive Rejection
  | PriceNotConfigured
  | ModelDisabled
  | InsufficientFunds
deriving DecidableEq

/-- Embedding of `get_final_cost` (src/app/main_api_utils.py, lines 10-51):
with an override, charge = round6(custom_cost * multiplier) and prime cost
from the catalog entry when present (0 otherwise), the coefficient unused;
without one, requires a catalog entry and applies the coefficient to the
charge only. -/
def get_final_cost (catalog : Catalog) (overrides : Overrides) (user : PUser)
    (model : String) (params : PDict) : Except Rejection (Money × Money) :=
  let multiplier := resolveMultiplier model params
  match overrides user.telegram_id model with
  | some custom_cost =>
      let base_prime_cost : Money :=
        match catalog model with
        | some p => p.prime_cost
        | none => 0
      .ok (round6 (custom_cost * multiplier), round6 (base_prime_cost * multiplier))
  | none =>
      match catalog model with
      | none => .error .PriceNotConfigured
      | some p =>
          .ok (round6 (p.cost * multiplier * user.coefficient),
               round6 (p.prime_cost * multiplier))

/-- Claim C6: with an override, charge = round6(custom_cost * m) independent
of the coefficient and prime cost = round6(base prime cost * m) (0 base when
no catalog entry); without an override and with a catalog entry, charge =
round6(base cost * m * coefficient) and prime cost = round6(base prime
cost * m), where m is the resolved multiplier. -/
theorem get_final_cost_formulas (catalog : Catalog) (overrides : Overrides)
    (user : PUser) (model : String) (params : PDict) :
    (∀ custom, overrides user.telegram_id model = some custom →
      (∀ p, catalog model = some p →
        get_final_cost catalog overrides user model params =
          .ok (round6 (custom * resolveMultiplier model params),
               round6 (p.prime_cost * resolveMultiplier model params))) ∧
      (catalog model = none →
        get_final_cost catalog overrides user model params =
          .ok (round6 (custom * resolveMultiplier model params),
               round6 (0 * resolveMultiplier model params))) ∧
      (∀ c : ℚ, get_final_cost catalog overrides
          { telegram_id := user.telegram_id, coefficient := c } model params =
        get_final_cost catalog overrides user model params)) ∧
    (overrides user.telegram_id model = none →
      ∀ p, catalog model = some p →
        get_final_cost catalog overrides user model params =
          .ok (round6 (p.cost * resolveMultiplier model params * user.coefficient),
               round6 (p.prime_cost * resolveMultiplier model params))) := by
  constructor
  · intro custom hov
    refine ⟨?_, ?_, ?_⟩
    · intro p hp
      unfold get_final_cost
      rw [hov, hp]
    · intro hp
      unfold get_final_cost
      rw [hov, hp]
    · intro c
      unfold get_final_cost
      rw [hov]
  · intro hov p hp
    unfold get_final_cost
    rw [hov, hp]


/-- Fixture catalog for the C6 witness: one active entry for "image-model"
with base cost 10 and prime cost 1. -/
def catalogB : Catalog :=
  fun m => if m = "image-model"
    then some { cost := 10, prime_cost := 1, is_active := true }
    else none

/-- Fixture override set for the C6 witness: custom cost 5 for "image-model"
for every user. -/
def overridesB : Overrides :=
  fun _ m => if m = "image-model" then some (5 : Money) else none

/-- Witness for C6 (Scenario B flavour): override custom cost 5, quantity 2,
catalog prime cost 1, coefficient 3: charge 10 and prime cost 2, the
coefficient unused. -/
theorem get_final_cost_formulas_witness :
    overridesB 77 "image-model" = some 5
    ∧ catalogB "image-model"
        = some { cost := 10, prime_cost := 1, is_active := true }
    ∧ get_final_cost catalogB overridesB
        { telegram_id := 77, coefficient := 3 }
        "image-model" [("num_images", 2)]
      = .ok (10, 2) := by
  refine ⟨rfl, rfl, ?_⟩
  have h := (get_final_cost_formulas catalogB overridesB
    { telegram_id := 77, coefficient := 3 }
    "image-model" [("num_images", 2)]).1 5 rfl
  have h2 := h.1 { cost := 10, prime_cost := 1, is_active := true } rfl
  rw [h2]
  have hm : resolveMultiplier "image-model" [("num_images", 2)] = 2 := by decide
  rw [hm]
  have r1 : round6 ((5 : Money) * 2) = 10 := by
    unfold round6
    norm_num [round_eq]
  have r2 : round6 (Price.prime_cost
      { cost := 10, prime_cost := 1, is_active := true } * 2) = 2 := by
    unfold round6
    norm_num [round_eq]
  rw [r1, r2]

/-- Counterexample to claim C9 as stated: a request with duration -2 for a
duration-priced model makes the resolver use multiplier -2, not 1 — the
negative value is passed through by the truthiness fallback. -/
theorem multiplier_negative_passthrough :
    resolveMultiplier "video-model" [("duration", (-2 : ℚ))] = -2
    ∧ ((-2 : ℚ) ≠ 1) ∧ ((-2 : ℚ) < 0) := by
  refine ⟨by decide, by norm_num, by norm_num⟩

/-- Claim C9 (amended): in `get_final_cost` the multiplier is the requested
duration for duration-priced models and the requested quantity otherwise,
defaulting to 1 only when the field is absent or zero — a negative supplied
value is used as-is; the service-level `_calculate_costs` multiplier, by
contrast, replaces absent and non-positive values with 1 and is always
strictly positive. -/
theorem multiplier_resolution (model : String) (params : PDict) :
    (model ∈ MODELS_WITH_DURATION_COST →
      (List.lookup "duration" params = none → resolveMultiplier model params = 1) ∧
      (List.lookup "duration" params = some 0 → resolveMultiplier model params = 1) ∧
      (∀ v, List.lookup "duration" params = some v → v ≠ 0 →
        resolveMultiplier model params = v)) ∧
    (model ∉ MODELS_WITH_DURATION_COST →
      (List.lookup "num_images" params = none → resolveMultiplier model params = 1) ∧
      (List.lookup "num_images" params = some 0 → resolveMultiplier model params = 1) ∧
      (∀ v, List.lookup "num_images" params = some v → v ≠ 0 →
        resolveMultiplier model params = v)) ∧
    (∀ duration num_images : Option ℚ,
      0 < serviceMultiplier model duration num_images) := by
  refine ⟨?_, ?_, ?_⟩
  · intro hmem
    refine ⟨?_, ?_, ?_⟩
    · intro hnone
      unfold resolveMultiplier pyOrOne
      rw [if_pos hmem, hnone]
      simp
    · intro hzero
      unfold resolveMultiplier pyOrOne
      rw [if_pos hmem, hzero]
      simp
    · intro v hv hvne
      unfold resolveMultiplier pyOrOne
      rw [if_pos hmem, hv]
      simp [hvne]
  · intro hmem
    refine ⟨?_, ?_, ?_⟩
    · intro hnone
      unfold resolveMultiplier pyOrOne
      rw [if_neg hmem, hnone]
      simp
    · intro hzero
      unfold resolveMultiplier pyOrOne
      rw [if_neg hmem, hzero]
      simp
    · intro v hv hvne
      unfold resolveMultiplier pyOrOne
      rw [if_neg hmem, hv]
      simp [hvne]
  · intro duration num_images
    unfold serviceMultiplier
    by_cases hmem : model ∈ MODELS_WITH_DURATION_COST
    · rw [if_pos hmem]
      cases duration with
      | none => norm_num
      | some d =>
          by_cases hd : 0 < d
          · simp [hd]
          · simp [hd]
    · rw [if_neg hmem]
      cases num_images with
      | none => norm_num
      | some n =>
          by_cases hn : 0 < n
          · simp [hn]
          · simp [hn]

/-- Witness for C9 (amended) at concrete inputs: duration 7 resolves to
multiplier 7, and the service multiplier on a negative duration is
positive. -/
theorem multiplier_resolution_witness :
    resolveMultiplier "video-model" [("duration", (7 : ℚ))] = 7
    ∧ (0 : ℚ) < serviceMultiplier "video-model" (some (-3)) none := by
  have h := multiplier_resolution "video-model" [("duration", (7 : ℚ))]
  refine ⟨?_, h.2.2 (some (-3)) none⟩
  exact (h.1 (by decide)).2.2 7 (by decide) (by norm_num)

/-!
Task store and worker.  The MongoDB task collection (documents created by
`GenerationService._prepare_task_document` and mutated by the worker and the
admin task router) is modelled as a function from the task id string to the
optional document.  Timestamps are opaque integers.
-/

/-- Task lifecycle status strings used in the source. -/
inductive TaskStatus
  | pending
  | processing
  | completed
  | failed
deriving DecidableEq, Repr

/-- A document of the task collection, with the fields written by
`_prepare_task_document` (generation_service.py, lines 118-138) and by the
worker (`processed_by`).  Fields read through `.get` in the source are
optional. -/
structure TaskRecord where
  status : TaskStatus
  user_telegram_id : ℤ
  api_key_id : Option ℤ
  model : String
  params : PDict
  cost : Option Money
  prime_cost : Option Money
  created_at : ℤ
  processed_by : Option String
  result : Option String
  error : Option String
deriving DecidableEq

/-- The task collection, keyed by the string `_id`. -/
def TaskStore : Type := String → Option TaskRecord

/-- A queue message payload, as decoded by the worker from the JSON body
(worker.py `on_message` / `process_task`): the full flat task document. -/
structure TaskData where
  id : String
  user_telegram_id : ℤ
  api_key_id : Option ℤ
  model : String
  params : PDict
  cost : Option Money
  prime_cost : Option Money
  created_at : ℤ
deriving DecidableEq

/-- The claim step of `process_task` (src/app/worker.py, lines 49-67):
`find_one_and_update` with `upsert=True`, `$setOnInsert` on the immutable
fields and `$set` on status/processed_by/result/error.  For an existing
document only the `$set` fields change; for a missing one the full document
is inserted. -/
def claim_step (store : TaskStore) (td : TaskData) (workerId : String) :
    TaskStore :=
  fun j =>
    if j = td.id then
      match store td.id with
      | some r => some { r with
          status := .processing, processed_by := some workerId,
          result := none, error := none }
      | none => some {
          status := .processing,
          user_telegram_id := td.user_telegram_id,
          api_key_id := td.api_key_id,
          model := td.model,
          params := td.params,
          cost := td.cost,
          prime_cost := td.prime_cost,
          created_at := td.created_at,
          processed_by := some workerId,
          result := none,
          error := none }
    else store j

/-- The success write of `process_task` (worker.py, lines 85-86):
`update_one` setting status completed and the result. -/
def task_set_completed (store : TaskStore) (id : String) (res : String) :
    TaskStore :=
  fun j =>
    if j = id then
      (store id).map (fun r => { r with status := .completed, result := some res })
    else store j

/-- The failure write of `process_task` (worker.py, line 91): `update_one`
setting status failed and the error text. -/
def task_set_failed (store : TaskStore) (id : String) (err : String) :
    TaskStore :=
  fun j =>
    if j = id then
      (store id).map (fun r => { r with status := .failed, error := some err })
    else store j

/-- Error text raised by the worker for a model with no registered processor
(worker.py, line 76). -/
def unknownProcessorMsg (model : String) : String :=
  "Не найден обработчик для модели " ++ model

/-- A processor abstracts a provider handler (`execute(params) -> result`):
it either returns an opaque result string or raises an error string. -/
def Processor : Type := PDict → Except String String

/-- Embedding of `refund_on_failure` (worker.py, lines 96-111): credit the
key by the message's cost field when `api_key_id` is truthy (present and
non-zero) and `cost` is not None; otherwise do nothing. -/
def refund_on_failure (td : TaskData) (l : Ledger ℤ) : Ledger ℤ :=
  match td.api_key_id, td.cost with
  | some k, some c => if k = 0 then l else refund_balance l k c
  | _, _ => l

/-- Embedding of `process_task` (worker.py, lines 40-92), parametric in the
processor registry (`MODEL_PROCESSORS` maps four model names onto provider
handlers whose behaviour is external I/O): claim, resolve the processor,
run it, then write completion, or write failure and refund. -/
def process_task (registry : String → Option Processor) (workerId : String)
    (td : TaskData) (store : TaskStore) (l : Ledger ℤ) :
    TaskStore × Ledger ℤ :=
  let store1 := claim_step store td workerId
  match registry td.model with
  | none =>
      (task_set_failed store1 td.id (unknownProcessorMsg td.model),
       refund_on_failure td l)
  | some proc =>
      match proc td.params with
      | .ok res => (task_set_completed store1 td.id res, l)
      | .error e => (task_set_failed store1 td.id e, refund_on_failure td l)

/-- The registry shape of `MODEL_PROCESSORS` (worker.py, lines 32-37), with
the four provider handlers as parameters. -/
def MODEL_PROCESSORS (gen_image gen_video gen : Processor) :
    String → Option Processor :=
  fun m =>
    if m = "image-model" then some gen_image
    else if m = "video-model" then some gen_video
    else if m = "random-model-one" then some gen
    else if m = "random-model-two" then some gen
    else none

/-- Embedding of the admin retry endpoint `retry_failed_task`
(src/app/routers/admin/tasks.py, lines 106-127): `find_one_and_update` on
the filter (id, status failed) setting status pending and clearing the
error; `none` models the 404 when no failed task matched. -/
def retry_failed_task (store : TaskStore) (id : String) : Option TaskStore :=
  match store id with
  | none => none
  | some r =>
      if r.status = .failed then
        some (fun j =>
          if j = id then some { r with status := .pending, error := none }
          else store j)
      else none

/-- Error annotation written by the admin manual refund (tasks.py,
line 151); a missing prior error renders as the string "None", as the
Python f-string does. -/
def manualRefundMsg (priorError : Option String) : String :=
  "Manual refund processed. Original error: " ++ priorError.getD "None"

/-- Body of the admin manual refund once the task document is found
(tasks.py, lines 142-152): 400 unless `key_id and cost and cost > 0`,
otherwise credit the key by the stored cost and rewrite the error text with
the annotation.  The status is never consulted and no refund marker is
written. -/
def refund_task_found (store : TaskStore) (l : Ledger ℤ) (id : String)
    (t : TaskRecord) : Option (TaskStore × Ledger ℤ) :=
  match t.api_key_id, t.cost with
  | some k, some c =>
      if k ≠ 0 ∧ c ≠ 0 ∧ 0 < c then
        some (fun j =>
                if j = id then some { t with error := some (manualRefundMsg t.error) }
                else store j,
              refund_balance l k c)
      else none
  | _, _ => none

/-- Embedding of the admin manual refund endpoint `refund_failed_task`
(tasks.py, lines 130-161): 404 when the task is missing, otherwise the found
branch above. -/
def refund_failed_task (store : TaskStore) (l : Ledger ℤ) (id : String) :
    Option (TaskStore × Ledger ℤ) :=
  match store id with
  | none => none
  | some t => refund_task_found store l id t

/-- Iterated admin manual refund: n successive invocations of the endpoint
for the same task id, stopping at the first rejection. -/
def iter_admin_refund : ℕ → TaskStore → Ledger ℤ → String →
    Option (TaskStore × Ledger ℤ)
  | 0, store, l, _ => some (store, l)
  | n + 1, store, l, id =>
      match refund_failed_task store l id with
      | none => none
      | some (store1, l1) => iter_admin_refund n store1 l1 id

/-- Observable startup state of the worker `main` (worker.py, lines
114-182) at the point where consumption of the queue begins: the prefetch
bound and the declared queue topology.  The task collection is only read as
a handle during startup; no document is written before `on_message` runs,
so the store field carries the store through unchanged. -/
structure WorkerStartState where
  prefetch : ℕ
  queueName : String
  dlxName : String
  dlqName : String
  store : TaskStore

/-- Embedding of the startup phase of the worker `main` (worker.py, lines
114-182): set QoS prefetch to the configured maximum, declare the
dead-letter exchange and queue and the primary queue, and begin consuming.
No task document is touched. -/
def worker_main_startup (maxConcurrentTasks : ℕ) (store : TaskStore) :
    WorkerStartState :=
  { prefetch := maxConcurrentTasks,
    queueName := "general_tasks_queue",
    dlxName := "general_tasks_queue.dlx",
    dlqName := "general_tasks_queue.dlq",
    store := store }

lemma refund_balance_eval (l : Ledger ℤ) (k : ℤ) (a b : Money)
    (hb : l k = some b) : refund_balance l k a k = some (b + a) := by
  unfold refund_balance
  rw [hb]
  simp

lemma claim_step_at_id (store : TaskStore) (td : TaskData) (wid : String)
    (r : TaskRecord) (h : store td.id = some r) :
    claim_step store td wid td.id = some { r with
      status := .processing, processed_by := some wid,
      result := none, error := none } := by
  unfold claim_step
  rw [if_pos rfl, h]

lemma claim_step_at_id_new (store : TaskStore) (td : TaskData) (wid : String)
    (h : store td.id = none) :
    claim_step store td wid td.id = some {
      status := .processing,
      user_telegram_id := td.user_telegram_id,
      api_key_id := td.api_key_id,
      model := td.model,
      params := td.params,
      cost := td.cost,
      prime_cost := td.prime_cost,
      created_at := td.created_at,
      processed_by := some wid,
      result := none,
      error := none } := by
  unfold claim_step
  rw [if_pos rfl, h]


lemma task_set_completed_at_id (s : TaskStore) (id res : String)
    (r : TaskRecord) (h : s id = some r) :
    task_set_completed s id res id
      = some { r with status := .completed, result := some res } := by
  unfold task_set_completed
  rw [if_pos rfl, h]
  rfl

lemma task_set_failed_at_id (s : TaskStore) (id e : String)
    (r : TaskRecord) (h : s id = some r) :
    task_set_failed s id e id
      = some { r with status := .failed, error := some e } := by
  unfold task_set_failed
  rw [if_pos rfl, h]
  rfl

lemma claim_step_exists (store : TaskStore) (td : TaskData) (wid : String) :
    ∃ r', claim_step store td wid td.id = some r' := by
  cases h : store td.id with
  | some r => exact ⟨_, claim_step_at_id store td wid r h⟩
  | none => exact ⟨_, claim_step_at_id_new store td wid h⟩

/-- Claim C5: re-processing a redelivered message for a task identity that
is already stored leaves the immutable fields (owner, key id, model, params,
cost, prime cost, creation time) exactly as first written, whatever values
the message carries, and overwrites only status, claiming worker, result and
error; no other document is touched. -/
theorem redelivery_preserves_immutable_fields (store : TaskStore)
    (td : TaskData) (wid : String) (r : TaskRecord)
    (h : store td.id = some r) :
    (∃ r', claim_step store td wid td.id = some r'
      ∧ r'.user_telegram_id = r.user_telegram_id
      ∧ r'.api_key_id = r.api_key_id
      ∧ r'.model = r.model
      ∧ r'.params = r.params
      ∧ r'.cost = r.cost
      ∧ r'.prime_cost = r.prime_cost
      ∧ r'.created_at = r.created_at
      ∧ r'.status = .processing
      ∧ r'.processed_by = some wid
      ∧ r'.result = none
      ∧ r'.error = none) ∧
    (∀ j, j ≠ td.id → claim_step store td wid j = store j) := by
  constructor
  · exact ⟨_, claim_step_at_id store td wid r h,
      rfl, rfl, rfl, rfl, rfl, rfl, rfl, rfl, rfl, rfl, rfl⟩
  · intro j hj
    unfold claim_step
    rw [if_neg hj]

/-- Stored document fixture: a completed task "t1" with cost 20. -/
def recCompleted : TaskRecord :=
  { status := .completed, user_telegram_id := 9, api_key_id := some 1,
    model := "image-model", params := [], cost := some 20,
    prime_cost := some 4, created_at := 0, processed_by := some "w0",
    result := some "res", error := none }

/-- Message fixture redelivering task "t1" with conflicting cost 999. -/
def tdConflicting : TaskData :=
  { id := "t1", user_telegram_id := 9, api_key_id := some 1,
    model := "image-model", params := [], cost := some 999,
    prime_cost := some 4, created_at := 0 }

/-- Store fixture holding exactly the completed task "t1". -/
def storeOneCompleted : TaskStore :=
  fun j => if j = "t1" then some recCompleted else none

/-- Witness for C5: redelivering "t1" with cost 999 keeps the stored cost 20
and only flips the lifecycle fields. -/
theorem redelivery_preserves_immutable_fields_witness :
    storeOneCompleted "t1" = some recCompleted
    ∧ (∃ r', claim_step storeOneCompleted tdConflicting "w1" "t1" = some r'
        ∧ r'.cost = some 20 ∧ r'.status = .processing) := by
  have h := redelivery_preserves_immutable_fields storeOneCompleted
    tdConflicting "w1" recCompleted rfl
  obtain ⟨⟨r', hr', _, _, _, _, hcost, _, _, hstat, _, _, _⟩, _⟩ := h
  exact ⟨rfl, ⟨r', hr', by rw [hcost]; rfl, hstat⟩⟩

/-- Counterexample to claim C4 as stated: the worker claim step applied to a
message for the already completed task "t1" moves its status back to
processing — a completed-to-processing transition outside the lifecycle
edges, not a no-op. -/
theorem reclaim_of_completed_task_regresses :
    (storeOneCompleted "t1").map TaskRecord.status = some .completed
    ∧ ((claim_step storeOneCompleted tdConflicting "w1") "t1").map
        TaskRecord.status = some .processing
    ∧ TaskStatus.completed ≠ TaskStatus.processing := by
  refine ⟨rfl, ?_, by decide⟩
  have h := claim_step_at_id storeOneCompleted tdConflicting "w1"
    recCompleted rfl
  rw [show claim_step storeOneCompleted tdConflicting "w1" "t1"
      = claim_step storeOneCompleted tdConflicting "w1" tdConflicting.id
    from rfl, h]
  rfl

lemma process_task_unresolved (registry : String → Option Processor)
    (wid : String) (td : TaskData) (store : TaskStore) (l : Ledger ℤ)
    (h : registry td.model = none) :
    process_task registry wid td store l =
      (task_set_failed (claim_step store td wid) td.id
        (unknownProcessorMsg td.model),
       refund_on_failure td l) := by
  unfold process_task
  rw [h]

lemma process_task_success (registry : String → Option Processor)
    (wid : String) (td : TaskData) (store : TaskStore) (l : Ledger ℤ)
    (proc : Processor) (res : String) (h : registry td.model = some proc)
    (hrun : proc td.params = .ok res) :
    process_task registry wid td store l =
      (task_set_completed (claim_step store td wid) td.id res, l) := by
  unfold process_task
  rw [h]
  simp only [hrun]

lemma process_task_raises (registry : String → Option Processor)
    (wid : String) (td : TaskData) (store : TaskStore) (l : Ledger ℤ)
    (proc : Processor) (e : String) (h : registry td.model = some proc)
    (hrun : proc td.params = .error e) :
    process_task registry wid td store l =
      (task_set_failed (claim_step store td wid) td.id e,
       refund_on_failure td l) := by
  unfold process_task
  rw [h]
  simp only [hrun]

/-- Claim C4 (amended): the admin retry endpoint performs exactly the
failed-to-pending edge (404 otherwise); the worker claim step, however,
unconditionally overwrites any prior status with processing — including
completed and failed — and the worker then re-runs the processor, finishing
in completed or failed. -/
theorem lifecycle_transition_characterisation (store : TaskStore)
    (td : TaskData) (wid : String) (id : String) :
    ((claim_step store td wid td.id).map TaskRecord.status = some .processing) ∧
    (store id = none → retry_failed_task store id = none) ∧
    (∀ r, store id = some r → r.status ≠ .failed →
      retry_failed_task store id = none) ∧
    (∀ r, store id = some r → r.status = .failed →
      retry_failed_task store id = some (fun j =>
        if j = id then some { r with status := .pending, error := none }
        else store j)) ∧
    (∀ registry l,
      ((process_task registry wid td store l).1 td.id).map TaskRecord.status
          = some .completed
      ∨ ((process_task registry wid td store l).1 td.id).map TaskRecord.status
          = some .failed) := by
  refine ⟨?_, ?_, ?_, ?_, ?_⟩
  · cases h : store td.id with
    | some r => rw [claim_step_at_id store td wid r h]; rfl
    | none => rw [claim_step_at_id_new store td wid h]; rfl
  · intro h
    unfold retry_failed_task
    rw [h]
  · intro r hr hst
    unfold retry_failed_task
    rw [hr]
    simp [hst]
  · intro r hr hst
    unfold retry_failed_task
    rw [hr]
    simp [hst]
  · intro registry l
    obtain ⟨r', hr'⟩ := claim_step_exists store td wid
    cases hreg : registry td.model with
    | none =>
        right
        rw [process_task_unresolved registry wid td store l hreg]
        show Option.map TaskRecord.status (task_set_failed
          (claim_step store td wid) td.id (unknownProcessorMsg td.model) td.id)
          = some TaskStatus.failed
        rw [task_set_failed_at_id _ _ _ r' hr']
        rfl
    | some proc =>
        cases hrun : proc td.params with
        | ok res =>
            left
            rw [process_task_success registry wid td store l proc res hreg hrun]
            show Option.map TaskRecord.status (task_set_completed
              (claim_step store td wid) td.id res td.id)
              = some TaskStatus.completed
            rw [task_set_completed_at_id _ _ _ r' hr']
            rfl
        | error e =>
            right
            rw [process_task_raises registry wid td store l proc e hreg hrun]
            show Option.map TaskRecord.status (task_set_failed
              (claim_step store td wid) td.id e td.id)
              = some TaskStatus.failed
            rw [task_set_failed_at_id _ _ _ r' hr']
            rfl

/-- Store fixture holding exactly one failed task "t9". -/
def storeOneFailed : TaskStore :=
  fun j => if j = "t9" then some { recCompleted with
    status := .failed, result := none, error := some "boom" } else none

/-- Witness for C4 (amended): on a store holding one failed task, the admin
retry produces a pending task with the error cleared; the claim step on a
redelivered message lands in processing. -/
theorem lifecycle_transition_characterisation_witness :
    storeOneFailed "t9" = some { recCompleted with
      status := .failed, result := none, error := some "boom" }
    ∧ retry_failed_task storeOneFailed "t9"
      = some (fun j =>
          if j = "t9" then some { { recCompleted with
              status := .failed, result := none, error := some "boom" } with
            status := .pending, error := none }
          else storeOneFailed j)
    ∧ (claim_step storeOneFailed tdConflicting "w1" tdConflicting.id).map
        TaskRecord.status = some TaskStatus.processing := by
  have h := lifecycle_transition_characterisation storeOneFailed
    tdConflicting "w1" "t9"
  exact ⟨rfl,
    h.2.2.2.1 { recCompleted with
      status := .failed, result := none, error := some "boom" } rfl rfl,
    h.1⟩

/-- Store fixture holding exactly one task stuck in processing. -/
def storeOneProcessing : TaskStore :=
  fun j => if j = "t2" then some { recCompleted with
    status := .processing, result := none } else none

/-- Counterexample to claim C7 as stated: the broker-based worker startup
performs no sweep — a task in processing is still processing, not pending,
at the point consumption begins. -/
theorem no_startup_sweep :
    ((worker_main_startup 40 storeOneProcessing).store "t2").map
      TaskRecord.status = some .processing
    ∧ TaskStatus.processing ≠ TaskStatus.pending := by
  exact ⟨rfl, by decide⟩

/-- Claim C7 (amended): worker startup (QoS and queue declarations only)
leaves the task store untouched: every task keeps its status across startup,
so a task left in processing by a crash is still in processing when
consumption begins, until its queue message is redelivered. -/
theorem worker_startup_leaves_store_unchanged (maxTasks : ℕ)
    (store : TaskStore) :
    (worker_main_startup maxTasks store).store = store ∧
    (∀ id r, store id = some r →
      ((worker_main_startup maxTasks store).store id).map TaskRecord.status
        = some r.status) ∧
    (worker_main_startup maxTasks store).prefetch = maxTasks ∧
    (worker_main_startup maxTasks store).queueName = "general_tasks_queue" := by
  refine ⟨rfl, ?_, rfl, rfl⟩
  intro id r hr
  show (store id).map TaskRecord.status = some r.status
  rw [hr]
  rfl

/-- Witness for C7 (amended): at the concrete one-task store, startup keeps
the processing status. -/
theorem worker_startup_leaves_store_unchanged_witness :
    storeOneProcessing "t2" = some { recCompleted with
      status := .processing, result := none }
    ∧ ((worker_main_startup 40 storeOneProcessing).store "t2").map
        TaskRecord.status = some TaskStatus.processing := by
  have h := (worker_startup_leaves_store_unchanged 40 storeOneProcessing).2.1
    "t2" { recCompleted with status := .processing, result := none } rfl
  exact ⟨rfl, h⟩

lemma refund_on_failure_eval (td : TaskData) (l : Ledger ℤ) (k : ℤ)
    (c b : Money) (hk : td.api_key_id = some k) (hk0 : k ≠ 0)
    (hc : td.cost = some c) (hb : l k = some b) :
    refund_on_failure td l k = some (b + c) := by
  unfold refund_on_failure
  rw [hk, hc]
  show (if k = 0 then l else refund_balance l k c) k = some (b + c)
  rw [if_neg hk0]
  exact refund_balance_eval l k c b hb

/-- Claim C3: when the processor of a claimed task raises — including when
no processor is registered for the model name — the worker marks the task
failed with the error text recorded and then credits the owning key by
exactly the stored charge, the credit being issued when the charge is
present and positive and the owning key id is known (truthy). -/
theorem worker_failure_marks_failed_and_refunds
    (registry : String → Option Processor) (wid : String) (td : TaskData)
    (store : TaskStore) (l : Ledger ℤ) (k : ℤ) (c b : Money)
    (hk : td.api_key_id = some k) (hk0 : k ≠ 0)
    (hc : td.cost = some c) (hcpos : 0 < c) (hb : l k = some b) :
    (registry td.model = none →
      ((process_task registry wid td store l).1 td.id).map TaskRecord.status
          = some .failed
      ∧ ((process_task registry wid td store l).1 td.id).map TaskRecord.error
          = some (some (unknownProcessorMsg td.model))
      ∧ (process_task registry wid td store l).2 k = some (b + c)) ∧
    (∀ proc e, registry td.model = some proc → proc td.params = .error e →
      ((process_task registry wid td store l).1 td.id).map TaskRecord.status
          = some .failed
      ∧ ((process_task registry wid td store l).1 td.id).map TaskRecord.error
          = some (some e)
      ∧ (process_task registry wid td store l).2 k = some (b + c)) := by
  obtain ⟨r', hr'⟩ := claim_step_exists store td wid
  constructor
  · intro hreg
    rw [process_task_unresolved registry wid td store l hreg]
    refine ⟨?_, ?_, ?_⟩
    · show Option.map TaskRecord.status (task_set_failed
        (claim_step store td wid) td.id (unknownProcessorMsg td.model) td.id)
        = some TaskStatus.failed
      rw [task_set_failed_at_id _ _ _ r' hr']
      rfl
    · show Option.map TaskRecord.error (task_set_failed
        (claim_step store td wid) td.id (unknownProcessorMsg td.model) td.id)
        = some (some (unknownProcessorMsg td.model))
      rw [task_set_failed_at_id _ _ _ r' hr']
      rfl
    · show refund_on_failure td l k = some (b + c)
      exact refund_on_failure_eval td l k c b hk hk0 hc hb
  · intro proc e hreg hrun
    rw [process_task_raises registry wid td store l proc e hreg hrun]
    refine ⟨?_, ?_, ?_⟩
    · show Option.map TaskRecord.status (task_set_failed
        (claim_step store td wid) td.id e td.id) = some TaskStatus.failed
      rw [task_set_failed_at_id _ _ _ r' hr']
      rfl
    · show Option.map TaskRecord.error (task_set_failed
        (claim_step store td wid) td.id e td.id) = some (some e)
      rw [task_set_failed_at_id _ _ _ r' hr']
      rfl
    · show refund_on_failure td l k = some (b + c)
      exact refund_on_failure_eval td l k c b hk hk0 hc hb

/-- Message fixture for a model with no registered processor. -/
def tdGhost : TaskData :=
  { id := "t5", user_telegram_id := 9, api_key_id := some 1,
    model := "ghost-model", params := [], cost := some 20,
    prime_cost := some 4, created_at := 0 }

/-- Empty task store fixture. -/
def storeEmpty : TaskStore := fun _ => none

/-- Ledger fixture: key 1 holds 30. -/
def ledgerThirty : Ledger ℤ := fun k => if k = 1 then some (30 : Money) else none

/-- Processor fixture that always succeeds. -/
def procOk : Processor := fun _ => .ok "done"

/-- Witness for C3 (Scenario D flavour): a claimed task with charge 20 whose
model has no handler ends failed and the key balance rises from 30 to 50. -/
theorem worker_failure_marks_failed_and_refunds_witness :
    tdGhost.api_key_id = some 1 ∧ ((1 : ℤ) ≠ 0) ∧ tdGhost.cost = some 20
    ∧ ((0 : Money) < 20) ∧ ledgerThirty 1 = some 30
    ∧ MODEL_PROCESSORS procOk procOk procOk tdGhost.model = none
    ∧ ((process_task (MODEL_PROCESSORS procOk procOk procOk) "w1" tdGhost
          storeEmpty ledgerThirty).1 tdGhost.id).map TaskRecord.status
        = some TaskStatus.failed
    ∧ (process_task (MODEL_PROCESSORS procOk procOk procOk) "w1" tdGhost
        storeEmpty ledgerThirty).2 1 = some (30 + 20) := by
  have h := worker_failure_marks_failed_and_refunds
    (MODEL_PROCESSORS procOk procOk procOk) "w1" tdGhost storeEmpty
    ledgerThirty 1 20 30 rfl (by norm_num) rfl (by norm_num) rfl
  have h1 := h.1 rfl
  exact ⟨rfl, by norm_num, rfl, by norm_num, rfl, rfl, h1.1, h1.2.2⟩

/-- Ledger fixture: key 1 holds 0. -/
def ledgerZero : Ledger ℤ := fun k => if k = 1 then some (0 : Money) else none

/-- Counterexample to claim C8 as stated: `refund_balance` applies a
negative credit unconditionally — crediting -1 onto a zero balance leaves
the balance at -1, below zero. -/
theorem negative_credit_drives_balance_negative :
    refund_balance ledgerZero 1 (-1) 1 = some (-1) ∧ ((-1 : Money) < 0) := by
  constructor
  · rw [refund_balance_eval ledgerZero 1 (-1) 0 rfl]
    norm_num
  · norm_num

/-- Claim C8 (amended): the conditional debit preserves a non-negative
balance for every amount; the unconditional credits (`refund_balance`,
`add_to_balance`) preserve it only for non-negative amounts — the code
never rejects a non-positive amount — and the administrative overwrite
(`update_balance_by_id`) preserves it only when the written value is itself
non-negative, there being no check in the code. -/
theorem ledger_mutations_preserve_nonneg (l : Ledger ℤ) (ls : Ledger String)
    (k : ℤ) (kv : String) (a v b : Money) :
    (∀ b0, l k = some b0 → 0 ≤ b0 →
      ∀ c, (deduct_from_balance l k a).2 k = some c → 0 ≤ c) ∧
    (0 ≤ a → l k = some b → 0 ≤ b →
      ∀ c, refund_balance l k a k = some c → 0 ≤ c) ∧
    (0 ≤ a → ls kv = some b → 0 ≤ b →
      ∀ c, (add_to_balance ls kv a).2 kv = some c → 0 ≤ c) ∧
    (0 ≤ v → ∀ c, (update_balance_by_id l k v).2 k = some c → 0 ≤ c) := by
  refine ⟨?_, ?_, ?_, ?_⟩
  · intro b0 hb0 hnn c hc
    refine deduct_preserves_nonneg l k a ?_ c hc
    intro b1 hb1
    rw [hb0] at hb1
    injection hb1 with hb1
    rw [← hb1]
    exact hnn
  · intro ha hb hnn c hc
    rw [refund_balance_eval l k a b hb] at hc
    injection hc with hc
    rw [← hc]
    linarith
  · intro ha hb hnn c hc
    unfold add_to_balance at hc
    rw [hb] at hc
    simp at hc
    rw [← hc]
    linarith
  · intro hv c hc
    unfold update_balance_by_id at hc
    cases hl : l k with
    | none =>
        rw [hl] at hc
        simp at hc
        rw [hl] at hc
        exact absurd hc (by simp)
    | some b1 =>
        rw [hl] at hc
        simp at hc
        rw [← hc]
        exact hv

/-- Witness for C8 (amended) at concrete values: crediting 2 onto a zero
balance keeps it non-negative, and an administrative overwrite to 4 does
too. -/
theorem ledger_mutations_preserve_nonneg_witness :
    ((0 : Money) ≤ 2) ∧ ledgerZero 1 = some 0 ∧ ((0 : Money) ≤ 0)
    ∧ refund_balance ledgerZero 1 2 1 = some 2
    ∧ ((0 : Money) ≤ 2)
    ∧ (update_balance_by_id ledgerZero 1 4).2 1 = some 4
    ∧ ((0 : Money) ≤ 4) := by
  have h := ledger_mutations_preserve_nonneg ledgerZero (fun _ => none)
    1 "k" 2 4 0
  have href : refund_balance ledgerZero 1 2 1 = some 2 := by
    rw [refund_balance_eval ledgerZero 1 2 0 rfl]
    norm_num
  have hupd : (update_balance_by_id ledgerZero 1 4).2 1 = some 4 := by
    unfold update_balance_by_id
    show (fun j => if j = (1 : ℤ) then some (4 : Money) else ledgerZero j) 1
      = some 4
    simp
  exact ⟨by norm_num, rfl, le_rfl,
    href, h.2.1 (by norm_num) rfl le_rfl 2 href,
    hupd, h.2.2.2 (by norm_num) 4 hupd⟩

lemma refund_failed_task_step (store : TaskStore) (l : Ledger ℤ) (id : String)
    (t : TaskRecord) (k : ℤ) (c : Money)
    (ht : store id = some t) (hk : t.api_key_id = some k) (hk0 : k ≠ 0)
    (hc : t.cost = some c) (hcpos : 0 < c) :
    refund_failed_task store l id =
      some (fun j => if j = id then
              some { t with error := some (manualRefundMsg t.error) }
            else store j,
            refund_balance l k c) := by
  unfold refund_failed_task
  rw [ht]
  show refund_task_found store l id t = _
  unfold refund_task_found
  rw [hk, hc]
  simp [hk0, hcpos, ne_of_gt hcpos]

lemma iter_admin_refund_adds (id : String) (k : ℤ) (c : Money)
    (hk0 : k ≠ 0) (hcpos : 0 < c) :
    ∀ (n : ℕ) (store : TaskStore) (l : Ledger ℤ) (t : TaskRecord) (b : Money),
      store id = some t → t.api_key_id = some k → t.cost = some c →
      l k = some b →
      ∃ sn ln, iter_admin_refund n store l id = some (sn, ln)
        ∧ ln k = some (b + n * c) := by
  intro n
  induction n with
  | zero =>
      intro store l t b ht hk hc hb
      refine ⟨store, l, rfl, ?_⟩
      rw [hb]
      simp
  | succ m ih =>
      intro store l t b ht hk hc hb
      have hstep := refund_failed_task_step store l id t k c ht hk hk0 hc hcpos
      have hl1 : refund_balance l k c k = some (b + c) :=
        refund_balance_eval l k c b hb
      obtain ⟨sn, ln, hiter, hbal⟩ := ih
        (fun j => if j = id then
          some { t with error := some (manualRefundMsg t.error) } else store j)
        (refund_balance l k c)
        { t with error := some (manualRefundMsg t.error) }
        (b + c) (by simp) hk hc hl1
      refine ⟨sn, ln, ?_, ?_⟩
      · show iter_admin_refund (m + 1) store l id = some (sn, ln)
        unfold iter_admin_refund
        rw [hstep]
        exact hiter
      · rw [hbal]
        congr 1
        push_cast
        ring

/-- Claim C10: the admin manual refund credits the owning key by the stored
cost for any existing task with a truthy key id and strictly positive cost,
regardless of lifecycle status; it only rewrites the error text (status and
cost untouched, no refunded marker), so n invocations raise the balance by
exactly n times the cost. -/
theorem admin_refund_ignores_status_and_is_not_idempotent
    (store : TaskStore) (l : Ledger ℤ) (id : String) (t : TaskRecord)
    (k : ℤ) (c b : Money)
    (ht : store id = some t) (hk : t.api_key_id = some k) (hk0 : k ≠ 0)
    (hc : t.cost = some c) (hcpos : 0 < c) (hb : l k = some b) :
    (∃ store1 l1, refund_failed_task store l id = some (store1, l1)
      ∧ l1 k = some (b + c)
      ∧ store1 id = some { t with error := some (manualRefundMsg t.error) }
      ∧ (store1 id).map TaskRecord.status = some t.status
      ∧ (store1 id).map TaskRecord.cost = some t.cost) ∧
    (∀ n : ℕ, ∃ sn ln, iter_admin_refund n store l id = some (sn, ln)
      ∧ ln k = some (b + n * c)) := by
  constructor
  · refine ⟨_, _, refund_failed_task_step store l id t k c ht hk hk0 hc hcpos,
      refund_balance_eval l k c b hb, ?_, ?_, ?_⟩
    · simp
    · simp
    · simp
  · intro n
    exact iter_admin_refund_adds id k c hk0 hcpos n store l t b ht hk hc hb

/-- Witness for C10: the completed (not failed) task "t1" with cost 20 is
refunded twice; the key balance rises from 30 by 2 times 20. -/
theorem admin_refund_ignores_status_witness :
    storeOneCompleted "t1" = some recCompleted
    ∧ recCompleted.status = TaskStatus.completed
    ∧ recCompleted.api_key_id = some 1
    ∧ recCompleted.cost = some 20
    ∧ ((0 : Money) < 20)
    ∧ ledgerThirty 1 = some 30
    ∧ (∃ sn ln,
        iter_admin_refund 2 storeOneCompleted ledgerThirty "t1" = some (sn, ln)
        ∧ ln 1 = some (30 + ((2 : ℕ) : Money) * 20)) := by
  have h := admin_refund_ignores_status_and_is_not_idempotent
    storeOneCompleted ledgerThirty "t1" recCompleted 1 20 30
    rfl rfl (by norm_num) rfl (by norm_num) rfl
  exact ⟨rfl, rfl, rfl, rfl, by norm_num, rfl, h.2 2⟩


/-!
Submission path.  `GenerationService.create_generation_task`
(src/app/services/generation_service.py, lines 42-60) validates the catalog
entry, computes the costs, conditionally debits the key and inserts the
pending task document.  The cost step, however, is broken in the source as
given: `_calculate_costs` (generation_service.py, line 95) calls
`get_final_cost` with `num_images=` and `duration=` keyword arguments,
while `get_final_cost` (main_api_utils.py, line 10) declares the positional
parameters (user, model_name, model_params, price_repo, user_price_repo)
and accepts no extra keywords — Python raises TypeError at call binding,
after the multiplier is computed but before any pricing, debit or insert
runs.  The embedding models this: a submission outcome is an accepted task
id, a typed rejection, or an unhandled exception escaping the service; the
persistent state (key ledger and task collection) is threaded explicitly
and is unchanged on the rejection and crash paths.
-/

/-- Persistent state touched by a submission: key ledger and task
collection. -/
structure GenState where
  ledger : Ledger ℤ
  tasks : TaskStore

/-- Outcome of a submission as observed by the caller: an accepted task id,
a typed rejection (an HTTPException of the service), or an unhandled Python
exception escaping the service. -/
inductive SubmissionOutcome
  | accepted (taskId : String)
  | rejected (r : Rejection)
  | crashed (msg : String)
deriving DecidableEq

/-- Embedding of `GenerationService._validate_and_get_price`
(generation_service.py, lines 62-79): 422 `PriceNotConfigured` when the
catalog has no entry for the model, 404 `ModelDisabled` when the entry is
inactive. -/
def validate_and_get_price (catalog : Catalog) (model : String) :
    Except Rejection Price :=
  match catalog model with
  | none => .error .PriceNotConfigured
  | some p => if p.is_active = false then .error .ModelDisabled else .ok p

/-- Error text of the TypeError raised at generation_service.py line 95:
the keyword arguments num_images and duration do not bind to any parameter
of `get_final_cost` and the required parameter model_params is missing. -/
def calculateCostsTypeError : String :=
  "TypeError: get_final_cost got an unexpected keyword argument num_images"

/-- Embedding of `GenerationService._calculate_costs` (generation_service.py,
lines 81-104) as it actually executes: the service-level multiplier is
computed (lines 86-92), then the call into `get_final_cost` at line 95
passes num_images=/duration= keyword arguments to a function whose third
positional parameter is the dict `model_params` (main_api_utils.py,
line 10) and which accepts no extra keywords, so Python raises TypeError at
call binding and no cost pair is ever produced. -/
def calculate_costs (catalog : Catalog) (overrides : Overrides) (user : PUser)
    (model : String) (duration num_images : Option ℚ) :
    Except String (Money × Money) :=
  let _m := serviceMultiplier model duration num_images
  .error calculateCostsTypeError

/-- The document prepared by `_prepare_task_document` (generation_service.py,
lines 118-138): a fresh pending task carrying the charge and prime cost. -/
def prepare_task_document (userId apiKeyId : ℤ) (model : String)
    (paramsDoc : PDict) (final_cost prime_cost : Money) (now : ℤ) :
    TaskRecord :=
  { status := .pending, user_telegram_id := userId,
    api_key_id := some apiKeyId, model := model, params := paramsDoc,
    cost := some final_cost, prime_cost := some prime_cost,
    created_at := now, processed_by := none, result := none, error := none }

/-- The debit-then-insert tail of the submission (`_deduct_funds` raising
402 on a failed conditional debit, then `insert_one` of the pending
document under the fresh uuid `taskId`).  Unreachable in the source as
given, because `_calculate_costs` raises before it. -/
def finish_submission (st : GenState) (apiKeyId userId : ℤ) (model : String)
    (paramsDoc : PDict) (taskId : String) (now : ℤ) (costs : Money × Money) :
    SubmissionOutcome × GenState :=
  match deduct_from_balance st.ledger apiKeyId costs.1 with
  | (false, l1) => (.rejected .InsufficientFunds, { st with ledger := l1 })
  | (true, l1) =>
      (.accepted taskId,
       { ledger := l1,
         tasks := fun j =>
           if j = taskId then
             some (prepare_task_document userId apiKeyId model paramsDoc
               costs.1 costs.2 now)
           else st.tasks j })

/-- Embedding of `GenerationService.create_generation_task`
(generation_service.py, lines 42-60 with its helpers): validate, then price
— where the broken `get_final_cost` call raises — then (unreachably) debit
and insert. -/
def create_generation_task (catalog : Catalog) (overrides : Overrides)
    (user : PUser) (apiKeyId : ℤ) (model : String)
    (duration num_images : Option ℚ) (paramsDoc : PDict) (taskId : String)
    (now : ℤ) (st : GenState) : SubmissionOutcome × GenState :=
  match validate_and_get_price catalog model with
  | .error r => (.rejected r, st)
  | .ok _ =>
      match calculate_costs catalog overrides user model duration num_images with
      | .error e => (.crashed e, st)
      | .ok costs =>
          finish_submission st apiKeyId user.telegram_id model paramsDoc
            taskId now costs

lemma deduct_fail_frame [DecidableEq κ] (l : Ledger κ) (k : κ) (a : Money)
    (h : (deduct_from_balance l k a).1 = false) :
    (deduct_from_balance l k a).2 = l := by
  unfold deduct_from_balance at h ⊢
  cases hl : l k with
  | none => rfl
  | some b =>
      rw [hl] at h
      replace h : (if a ≤ b then
          (true, fun k2 => if k2 = k then some (b - a) else l k2)
        else (false, l)).1 = false := h
      show (if a ≤ b then
          (true, fun k2 => if k2 = k then some (b - a) else l k2)
        else (false, l)).2 = l
      by_cases hle : a ≤ b
      · rw [if_pos hle] at h
        simp at h
      · rw [if_neg hle]

lemma validate_price_missing (catalog : Catalog) (model : String)
    (h : catalog model = none) :
    validate_and_get_price catalog model = .error .PriceNotConfigured := by
  unfold validate_and_get_price
  rw [h]

lemma validate_price_disabled (catalog : Catalog) (model : String) (p : Price)
    (hp : catalog model = some p) (hact : p.is_active = false) :
    validate_and_get_price catalog model = .error .ModelDisabled := by
  unfold validate_and_get_price
  rw [hp]
  show (if p.is_active = false
      then (.error .ModelDisabled : Except Rejection Price) else .ok p)
    = .error .ModelDisabled
  rw [if_pos hact]

lemma validate_price_ok (catalog : Catalog) (model : String) (p : Price)
    (hp : catalog model = some p) (hact : p.is_active = true) :
    validate_and_get_price catalog model = .ok p := by
  unfold validate_and_get_price
  rw [hp]
  show (if p.is_active = false
      then (.error .ModelDisabled : Except Rejection Price) else .ok p) = .ok p
  rw [hact]
  simp

lemma calculate_costs_raises (catalog : Catalog) (overrides : Overrides)
    (user : PUser) (model : String) (duration num_images : Option ℚ) :
    calculate_costs catalog overrides user model duration num_images
      = .error calculateCostsTypeError := rfl

lemma create_generation_task_cases (catalog : Catalog) (overrides : Overrides)
    (user : PUser) (apiKeyId : ℤ) (model : String)
    (duration num_images : Option ℚ) (paramsDoc : PDict) (taskId : String)
    (now : ℤ) (st : GenState) :
    (∃ r, create_generation_task catalog overrides user apiKeyId model
        duration num_images paramsDoc taskId now st = (.rejected r, st)
      ∧ (r = .PriceNotConfigured ∨ r = .ModelDisabled))
    ∨ create_generation_task catalog overrides user apiKeyId model duration
        num_images paramsDoc taskId now st
      = (.crashed calculateCostsTypeError, st) := by
  unfold create_generation_task
  cases hc : catalog model with
  | none =>
      left
      rw [validate_price_missing catalog model hc]
      exact ⟨.PriceNotConfigured, rfl, Or.inl rfl⟩
  | some p =>
      by_cases hact : p.is_active = true
      · right
        rw [validate_price_ok catalog model p hc hact,
          calculate_costs_raises catalog overrides user model duration
            num_images]
      · left
        simp only [Bool.not_eq_true] at hact
        rw [validate_price_disabled catalog model p hc hact]
        exact ⟨.ModelDisabled, rfl, Or.inr rfl⟩

/-- Claim C2 (behaviour of the code at the failing input): the pre-pricing
rejections behave as the claim says — `PriceNotConfigured` when the catalog
has no entry and `ModelDisabled` when the entry is inactive, with the state
unchanged — but every submission that passes validation dies with the
TypeError of the broken `get_final_cost` call before pricing, debit or
insert: no submission ever yields `InsufficientFunds` or an accepted task,
the ledger is never debited and no task is ever created. -/
theorem submission_crashes_after_validation (catalog : Catalog)
    (overrides : Overrides) (user : PUser) (apiKeyId : ℤ) (model : String)
    (duration num_images : Option ℚ) (paramsDoc : PDict) (taskId : String)
    (now : ℤ) (st : GenState) :
    (catalog model = none →
      create_generation_task catalog overrides user apiKeyId model duration
        num_images paramsDoc taskId now st = (.rejected .PriceNotConfigured, st)) ∧
    (∀ p, catalog model = some p → p.is_active = false →
      create_generation_task catalog overrides user apiKeyId model duration
        num_images paramsDoc taskId now st = (.rejected .ModelDisabled, st)) ∧
    (∀ p, catalog model = some p → p.is_active = true →
      create_generation_task catalog overrides user apiKeyId model duration
        num_images paramsDoc taskId now st
        = (.crashed calculateCostsTypeError, st)) ∧
    ((create_generation_task catalog overrides user apiKeyId model duration
        num_images paramsDoc taskId now st).2 = st) ∧
    (∀ tid, (create_generation_task catalog overrides user apiKeyId model
        duration num_images paramsDoc taskId now st).1
      ≠ .accepted tid) ∧
    ((create_generation_task catalog overrides user apiKeyId model duration
        num_images paramsDoc taskId now st).1
      ≠ .rejected .InsufficientFunds) := by
  have hcases := create_generation_task_cases catalog overrides user apiKeyId
    model duration num_images paramsDoc taskId now st
  refine ⟨?_, ?_, ?_, ?_, ?_, ?_⟩
  · intro h
    unfold create_generation_task
    rw [validate_price_missing catalog model h]
  · intro p hp hact
    unfold create_generation_task
    rw [validate_price_disabled catalog model p hp hact]
  · intro p hp hact
    unfold create_generation_task
    rw [validate_price_ok catalog model p hp hact,
      calculate_costs_raises catalog overrides user model duration num_images]
  · rcases hcases with ⟨r, heq, _⟩ | heq
    · rw [heq]
    · rw [heq]
  · intro tid
    rcases hcases with ⟨r, heq, _⟩ | heq
    · rw [heq]
      simp
    · rw [heq]
      simp
  · rcases hcases with ⟨r, heq, hr⟩ | heq
    · rw [heq]
      rcases hr with hr | hr
      · subst hr
        simp
      · subst hr
        simp
    · rw [heq]
      simp

/-- Catalog fixture: "image-model" active with base cost 10 and prime
cost 2. -/
def catalogSC : Catalog :=
  fun m => if m = "image-model"
    then some { cost := 10, prime_cost := 2, is_active := true } else none

/-- Empty override set fixture. -/
def overridesNone : Overrides := fun _ _ => none

/-- User fixture with coefficient 1. -/
def userCoeffOne : PUser := { telegram_id := 7, coefficient := 1 }

/-- State fixture: key 1 holds 5, no tasks. -/
def stateScenC : GenState :=
  { ledger := fun k => if k = 1 then some (5 : Money) else none,
    tasks := fun _ => none }

/-- Witness for C2 at the failing input: an active catalog entry for
"image-model" and a key holding 5 — the submission crashes with the
TypeError instead of returning `InsufficientFunds`; no task is created and
the balance is untouched. -/
theorem submission_crashes_after_validation_witness :
    catalogSC "image-model"
        = some { cost := 10, prime_cost := 2, is_active := true }
    ∧ ({ cost := 10, prime_cost := 2, is_active := true } : Price).is_active
        = true
    ∧ stateScenC.ledger 1 = some 5
    ∧ create_generation_task catalogSC overridesNone userCoeffOne 1
        "image-model" none none [] "task-sc" 0 stateScenC
      = (.crashed calculateCostsTypeError, stateScenC)
    ∧ (create_generation_task catalogSC overridesNone userCoeffOne 1
        "image-model" none none [] "task-sc" 0 stateScenC).2.tasks "task-sc"
      = none
    ∧ (create_generation_task catalogSC overridesNone userCoeffOne 1
        "image-model" none none [] "task-sc" 0 stateScenC).2.ledger 1
      = some 5 := by
  have h := (submission_crashes_after_validation catalogSC overridesNone
    userCoeffOne 1 "image-model" none none [] "task-sc" 0 stateScenC).2.2.1
    { cost := 10, prime_cost := 2, is_active := true } rfl rfl
  refine ⟨rfl, rfl, rfl, h, ?_, ?_⟩
  · rw [h]
    rfl
  · rw [h]
    rfl
